import Mathlib

/-!
Verification development for the conversational-agent orchestration core
(`src/agent`): language guard, context assembler, orchestration state machine,
tool dispatcher, memory extractor, and message-key construction.

The Python source is shallowly embedded: pure functions become Lean functions,
external effects (model calls, tool calls, the DynamoDB store) become explicit
parameters (`Except`-valued oracles and an explicit store value), and the
LangGraph state machine becomes a fuel-indexed step interpreter.
-/

/- ───────────────────────────── Language guard ─────────────────────────────
   Embeds `src/agent/src/utils/languages.py`. Text is represented as
   `List Char` (Unicode codepoints); regex character classes become Boolean
   character predicates. -/

/-- Membership of a character's codepoint in an inclusive range. -/
def inRange (c : Char) (lo hi : Nat) : Bool :=
  lo ≤ c.toNat && c.toNat ≤ hi

/-- Embeds `SCRIPT_PATTERNS`: script name paired with its character-range
predicate, in the source dictionary's insertion order. -/
def SCRIPT_PATTERNS : List (String × (Char → Bool)) :=
  [ ("devanagari", fun c => inRange c 0x0900 0x097F),
    ("bengali",    fun c => inRange c 0x0980 0x09FF),
    ("gujarati",   fun c => inRange c 0x0A80 0x0AFF),
    ("gurmukhi",   fun c => inRange c 0x0A00 0x0A7F),
    ("kannada",    fun c => inRange c 0x0C80 0x0CFF),
    ("malayalam",  fun c => inRange c 0x0D00 0x0D7F),
    ("odia",       fun c => inRange c 0x0B00 0x0B7F),
    ("tamil",      fun c => inRange c 0x0B80 0x0BFF),
    ("telugu",     fun c => inRange c 0x0C00 0x0C7F),
    ("latin",      fun c => inRange c 0x41 0x5A || inRange c 0x61 0x7A) ]

/-- Embeds `LANGUAGE_SCRIPTS`: language code to acceptable script names. -/
def LANGUAGE_SCRIPTS : List (String × List String) :=
  [ ("en", ["latin"]),
    ("hi", ["devanagari", "latin"]),
    ("mr", ["devanagari", "latin"]),
    ("ml", ["malayalam", "latin"]),
    ("ta", ["tamil", "latin"]),
    ("te", ["telugu", "latin"]),
    ("kn", ["kannada", "latin"]),
    ("bn", ["bengali", "latin"]),
    ("gu", ["gujarati", "latin"]),
    ("or", ["odia", "latin"]) ]

/-- Embeds `LANGUAGE_LABELS`. -/
def LANGUAGE_LABELS : List (String × String) :=
  [ ("en", "English"),
    ("hi", "हिन्दी (Hindi)"),
    ("mr", "मराठी (Marathi)"),
    ("ml", "മലയാളം (Malayalam)"),
    ("ta", "தமிழ் (Tamil)"),
    ("te", "తెలుగు (Telugu)"),
    ("kn", "ಕನ್ನಡ (Kannada)"),
    ("bn", "বাংলা (Bengali)"),
    ("gu", "ગુજરાતી (Gujarati)"),
    ("or", "ଓଡ଼ିଆ (Odia)") ]

/-- Embeds `REJECTION_MESSAGES`. -/
def REJECTION_MESSAGES : List (String × String) :=
  [ ("en", "I can only understand English. Please write your message in English. 🙏"),
    ("hi", "कृपया हिन्दी में लिखें। मैं केवल हिन्दी समझ सकता हूँ। Hinglish भी चलेगा! 🙏"),
    ("mr", "कृपया मराठीत लिहा. मी फक्त मराठी समजू शकतो. 🙏"),
    ("ml", "ദയവായി മലയാളത്തിൽ എഴുതുക. എനിക്ക് മലയാളം മാത്രമേ മനസ്സിലാകൂ. 🙏"),
    ("ta", "தயவுசெய்து தமிழில் எழுதுங்கள். எனக்கு தமிழ் மட்டுமே புரியும். 🙏"),
    ("te", "దయచేసి తెలుగులో రాయండి. నాకు తెలుగు మాత్రమే అర్థమవుతుంది. 🙏"),
    ("kn", "ದಯವಿಟ್ಟು ಕನ್ನಡದಲ್ಲಿ ಬರೆಯಿರಿ. ನನಗೆ ಕನ್ನಡ ಮಾತ್ರ ಅರ್ಥವಾಗುತ್ತದೆ. 🙏"),
    ("bn", "অনুগ্রহ করে বাংলায় লিখুন। আমি শুধু বাংলা বুঝতে পারি। 🙏"),
    ("gu", "કૃપા કરીને ગુજરાતીમાં લખો. હું ફક્ત ગુજરાતી સમજી શકું છું. 🙏"),
    ("or", "ଦୟାକରି ଓଡ଼ିଆରେ ଲେଖନ୍ତୁ। ମୁଁ କେବଳ ଓଡ଼ିଆ ବୁଝିପାରେ। 🙏") ]

/-- Whitespace characters matched by `\s` in the source's strip regex
(Unicode whitespace as matched by Python `re` on `str`). -/
def isPySpace (c : Char) : Bool :=
  let n := c.toNat
  (9 ≤ n && n ≤ 13) || n = 32 || (28 ≤ n && n ≤ 31) || n = 0x85 || n = 0xA0 ||
  n = 0x1680 || (0x2000 ≤ n && n ≤ 0x200A) || n = 0x2028 || n = 0x2029 ||
  n = 0x202F || n = 0x205F || n = 0x3000

/-- Decimal-digit characters matched by `\d` in the source's strip regex
(Unicode category Nd, restricted to the ASCII, Arabic and Indic digit blocks
relevant to this system's input space). -/
def isPyDigit (c : Char) : Bool :=
  let n := c.toNat
  (0x30 ≤ n && n ≤ 0x39) || (0x660 ≤ n && n ≤ 0x669) || (0x6F0 ≤ n && n ≤ 0x6F9) ||
  (0x966 ≤ n && n ≤ 0x96F) || (0x9E6 ≤ n && n ≤ 0x9EF) || (0xA66 ≤ n && n ≤ 0xA6F) ||
  (0xAE6 ≤ n && n ≤ 0xAEF) || (0xB66 ≤ n && n ≤ 0xB6F) || (0xBE6 ≤ n && n ≤ 0xBEF) ||
  (0xC66 ≤ n && n ≤ 0xC6F) || (0xCE6 ≤ n && n ≤ 0xCEF) || (0xD66 ≤ n && n ≤ 0xD6F)

/-- Punctuation characters listed literally in the source's `_STRIP_RE`
character class (written by codepoint). -/
def isStripPunct (c : Char) : Bool :=
  let n := c.toNat
  n = 0x2E || n = 0x2C || n = 0x21 || n = 0x3F || n = 0x3B || n = 0x3A ||
  n = 0x27 || n = 0x22 || n = 0x2D || n = 0x2014 || n = 0x2013 || n = 0x28 ||
  n = 0x29 || n = 0x5B || n = 0x5D || n = 0x7B || n = 0x7D || n = 0x2F ||
  n = 0x5C || n = 0x40 || n = 0x23 || n = 0x24 || n = 0x25 || n = 0x5E ||
  n = 0x26 || n = 0x2A || n = 0x2B || n = 0x3D || n = 0x7E || n = 0x60 ||
  n = 0x7C || n = 0x3C || n = 0x3E

/-- Characters removed by `_STRIP_RE` (whitespace, digits, punctuation). -/
def isStripChar (c : Char) : Bool :=
  isPySpace c || isPyDigit c || isStripPunct c

/-- Characters removed by the emoji-stripping regex inside
`validate_language` (the pictographic ranges listed in the source). -/
def isEmojiChar (c : Char) : Bool :=
  let n := c.toNat
  (0x1F600 ≤ n && n ≤ 0x1F64F) || (0x1F300 ≤ n && n ≤ 0x1F5FF) ||
  (0x1F680 ≤ n && n ≤ 0x1F6FF) || (0x1F1E0 ≤ n && n ≤ 0x1F1FF) ||
  (0x2702 ≤ n && n ≤ 0x27B0) || (0x1F900 ≤ n && n ≤ 0x1F9FF) ||
  (0x1FA00 ≤ n && n ≤ 0x1FA6F) || (0x1FA70 ≤ n && n ≤ 0x1FAFF) ||
  (0x2600 ≤ n && n ≤ 0x26FF)

/-- The two sequential regex substitutions at the start of
`validate_language`: first `_STRIP_RE.sub("", text)`, then the emoji
substitution. The remaining characters are the "meaningful" ones. -/
def strip_noise (text : List Char) : List Char :=
  (text.filter (fun c => !(isStripChar c))).filter (fun c => !(isEmojiChar c))

/-- Embeds `detect_scripts`: script name to count of matching characters, in
pattern order, keeping only scripts with at least one match. -/
def detect_scripts (text : List Char) : List (String × Nat) :=
  SCRIPT_PATTERNS.filterMap fun sp =>
    let n := (text.filter sp.2).length
    if n > 0 then some (sp.1, n) else none

/-- The rejection-reason f-string built inside `validate_language`. -/
def reject_reason (script : String) (selected_lang : String) : String :=
  let label := (List.lookup selected_lang LANGUAGE_LABELS).getD selected_lang
  "Detected " ++ script ++ " script but selected language is " ++ label ++
  ". Please write in " ++ label ++ "."

/-- The `for script in script_names` loop of `validate_language`: skip
`"latin"`, and reject at the first script not in the acceptable set. -/
def check_scripts (script_names : List String) (acceptable : List String)
    (selected_lang : String) : Bool × Option String :=
  match script_names with
  | [] => (true, none)
  | s :: rest =>
    if s = "latin" then check_scripts rest acceptable selected_lang
    else if acceptable.contains s then check_scripts rest acceptable selected_lang
    else (false, some (reject_reason s selected_lang))

/-- Embeds `validate_language`. -/
def validate_language (text : List Char) (selected_lang : String) :
    Bool × Option String :=
  let stripped := strip_noise text
  if stripped.length < 3 then (true, none)
  else
    let scripts := detect_scripts text
    let script_names := scripts.map Prod.fst
    if script_names = [] then (true, none)
    else if script_names = ["latin"] then (true, none)
    else
      check_scripts script_names
        ((List.lookup selected_lang LANGUAGE_SCRIPTS).getD ["latin"]) selected_lang

/-- Embeds `get_rejection_message`; the default is `REJECTION_MESSAGES["en"]`. -/
def get_rejection_message (selected_lang : String) : String :=
  (List.lookup selected_lang REJECTION_MESSAGES).getD
    "I can only understand English. Please write your message in English. 🙏"

/- ───────────────────────────── Store model ───────────────────────────────
   Embeds the parts of `src/agent/src/memory/dynamodb_store.py` the core
   uses.  DynamoDB is modelled as explicit association lists; the message
   table holds each conversation's items in ascending sort-key order. -/

/-- A stored message record (the fields `manager.py` reads). -/
structure StoredMsg where
  role : String
  content : String
deriving DecidableEq

/-- A conversation record (the fields the core reads and writes). -/
structure ConvRecord where
  userId : String
  title : String
  language : String
  summary : String
  messageCount : Nat
deriving DecidableEq

/-- The persistent store: conversations, per-conversation message lists (in
ascending sort-key order), and per-user long-term-memory fact blobs. -/
structure Store where
  conversations : List (String × ConvRecord)
  messages : List (String × List StoredMsg)
  memory : List (String × String)
deriving DecidableEq

/-- Replace the binding for `k` in an association list (append if absent);
the update semantics of a keyed `put_item` / `update_item`. -/
def set_assoc {β : Type} (k : String) (v : β) :
    List (String × β) → List (String × β)
  | [] => [(k, v)]
  | (k', v') :: rest =>
    if k' = k then (k, v) :: rest else (k', v') :: set_assoc k v rest

/-- Embeds `get_conversation`. -/
def get_conversation (st : Store) (cid : String) : Option ConvRecord :=
  List.lookup cid st.conversations

/-- Embeds the `update_conversation(conversation_id, summary=...)` call made
by the memory manager (the only conversation update the core performs; the
`updatedAt` timestamp attribute is not modelled). -/
def update_conversation_summary (st : Store) (cid : String) (summary : String) :
    Store :=
  match List.lookup cid st.conversations with
  | some c =>
    { st with conversations := set_assoc cid { c with summary := summary } st.conversations }
  | none => st

/-- Embeds `get_messages(conversation_id, limit, ascending=True)`: the first
`limit` items of the conversation's messages in ascending key order. -/
def get_messages (st : Store) (cid : String) (limit : Nat) : List StoredMsg :=
  ((List.lookup cid st.messages).getD []).take limit

/-- Embeds `get_long_term_memory`: `None` when no record exists, otherwise
the record's `facts` attribute. -/
def get_long_term_memory (st : Store) (uid : String) : Option String :=
  List.lookup uid st.memory

/-- Embeds `update_long_term_memory`: whole-record replacement of the
user's fact blob (the `updatedAt` attribute is not modelled). -/
def update_long_term_memory (st : Store) (uid : String) (facts : String) : Store :=
  { st with memory := set_assoc uid facts st.memory }

/- ───────────────────────────── Memory manager ─────────────────────────────
   Embeds `src/agent/src/memory/manager.py`.  The Gemini text helper
   `_call_bedrock_for_text` is parameterised by an oracle
   `llm : String → Except String String`; `.error` models a raised
   exception from the model client. -/

/-- Python truthiness-based `x or d` for an optional string: `None` and the
empty string both fall through to the default. -/
def pyOr (x : Option String) (d : String) : String :=
  match x with
  | some s => if s = "" then d else s
  | none => d

/-- Drop elements satisfying `p` from the tail of a list (as Mathlib's
`List.rdropWhile`, restated here to keep the strip function self-contained). -/
def rdrop_while {α : Type} (p : α → Bool) (l : List α) : List α :=
  (l.reverse.dropWhile p).reverse

/-- Python `str.strip()`: remove leading and trailing whitespace. -/
def pyStrip (s : String) : String :=
  ⟨rdrop_while isPySpace (s.data.dropWhile isPySpace)⟩

/-- Python `s[:n]` on a string. -/
def str_take (n : Nat) (s : String) : String :=
  ⟨s.data.take n⟩

/-- The fallback text returned by `_call_bedrock_for_text` when the model
call raises. -/
def LLM_FALLBACK_TEXT : String := "(Summary unavailable — LLM not configured)"

/-- Embeds `_call_bedrock_for_text`: return the model's text, or the fixed
fallback string if the call raises.  Note the fallback is a *non-empty*
string, not an error value. -/
def call_bedrock_for_text (llm : String → Except String String)
    (prompt : String) : String :=
  match llm prompt with
  | .ok s => s
  | .error _ => LLM_FALLBACK_TEXT

/-- One line of the transcript built by `_summarize_messages`. -/
def transcript_line (m : StoredMsg) : String :=
  (if m.role = "user" || m.role = "human" then "User" else "Assistant") ++
  ": " ++ str_take 300 m.content

/-- The summarization prompt built by `_summarize_messages`. -/
def summarize_prompt (messages : List StoredMsg) : String :=
  let transcript := String.intercalate "\n" (messages.map transcript_line)
  "Summarise the following conversation between a fisherman and an AI assistant. " ++
  "Keep the summary under 200 words. Focus on: topics discussed, decisions made, " ++
  "any specific data mentioned (species, locations, dates). Write in plain language.\n\n" ++
  transcript ++ "\n\nSummary:"

/-- Embeds `_summarize_messages` (one model call through the text helper). -/
def summarize_messages (llm : String → Except String String)
    (messages : List StoredMsg) : String :=
  call_bedrock_for_text llm (summarize_prompt messages)

/-- Embeds `SHORT_TERM_MESSAGE_LIMIT` (env default `10`): the short-term
window W of messages kept verbatim. -/
def SHORT_TERM_MESSAGE_LIMIT : Nat := 10

/-- A structured tool-call request attached to an `AIMessage`. -/
structure ToolCall where
  name : String
  args : String
  id : String
deriving DecidableEq

/-- LangChain-style chat messages flowing through the graph.  An
`AIMessage` carries its tool-call requests; a `ToolMessage` carries the
originating `tool_call_id`. -/
inductive Msg where
  | system : String → Msg
  | human : String → Msg
  | ai : String → List ToolCall → Msg
  | tool : String → String → Msg
deriving DecidableEq

/-- Embeds `_to_langchain_messages`: convert stored records to chat
messages, skipping unknown roles. -/
def to_langchain_messages (raw : List StoredMsg) : List Msg :=
  raw.filterMap fun m =>
    if m.role = "user" || m.role = "human" then some (.human m.content)
    else if m.role = "assistant" || m.role = "ai" then some (.ai m.content [])
    else if m.role = "system" then some (.system m.content)
    else none

/-- Result of `build_message_history`: the verbatim recent messages, the
summary (if any), the possibly-updated store, and how many model calls the
summarizer made. -/
structure BuildResult where
  recent : List Msg
  summary : Option String
  store : Store
  llm_calls : Nat

/-- Embeds `build_message_history`: fetch up to 500 messages, keep the last
`SHORT_TERM_MESSAGE_LIMIT` verbatim, reuse the conversation's cached summary
(`conv.get("summary") or None`), and otherwise summarise the older prefix
and persist the result onto the conversation record. -/
def build_message_history (llm : String → Except String String) (st : Store)
    (conversation_id : String) : BuildResult :=
  let all_messages := get_messages st conversation_id 500
  let total := all_messages.length
  let recent_raw :=
    if total > SHORT_TERM_MESSAGE_LIMIT then
      all_messages.drop (total - SHORT_TERM_MESSAGE_LIMIT)
    else all_messages
  let recent_lc := to_langchain_messages recent_raw
  let conv := get_conversation st conversation_id
  let summary : Option String :=
    match conv with
    | some c => if c.summary = "" then none else some c.summary
    | none => none
  if total > SHORT_TERM_MESSAGE_LIMIT ∧ summary = none then
    let older := all_messages.take (total - SHORT_TERM_MESSAGE_LIMIT)
    let s := summarize_messages llm older
    let st' :=
      match conv with
      | some _ => update_conversation_summary st conversation_id s
      | none => st
    ⟨recent_lc, some s, st', 1⟩
  else
    ⟨recent_lc, summary, st, 0⟩

/-- The placeholder used when a user has no stored facts. -/
def NO_FACTS_PLACEHOLDER : String := "No facts recorded yet."

/-- The extraction prompt built by `extract_and_update_long_term_memory`. -/
def extraction_prompt (existing user_message assistant_response : String) :
    String :=
  "You are a memory extraction system. Given the EXISTING facts about a fisherman user " ++
  "and their LATEST conversation exchange, determine if there are any NEW permanent facts " ++
  "worth remembering (e.g. home port, boat type, preferred fish, family details, experience).\n\n" ++
  "EXISTING FACTS:\n" ++ existing ++ "\n\n" ++
  "USER MESSAGE:\n" ++ user_message ++ "\n\n" ++
  "ASSISTANT RESPONSE:\n" ++ assistant_response ++ "\n\n" ++
  "If there are new facts, output the COMPLETE updated fact list (merge old + new). " ++
  "If nothing new, output the existing facts unchanged. " ++
  "Keep the format as a simple bullet list. Be concise.\n\n" ++
  "UPDATED FACTS:"

/-- Embeds `extract_and_update_long_term_memory`: load existing facts (or a
placeholder), ask the model for the merged fact list, and persist the
stripped output as the new blob whenever it is non-empty. -/
def extract_and_update_long_term_memory (llm : String → Except String String)
    (st : Store) (user_id user_message assistant_response : String) : Store :=
  let existing := pyOr (get_long_term_memory st user_id) NO_FACTS_PLACEHOLDER
  let updated :=
    call_bedrock_for_text llm
      (extraction_prompt existing user_message assistant_response)
  if pyStrip updated ≠ "" then
    update_long_term_memory st user_id (pyStrip updated)
  else st

/- ───────────────────────────── System prompt ──────────────────────────────
   Embeds `src/agent/src/core/prompts.py` as called from `load_context`
   (the `region_context` / `catch_context` parameters always default to
   `None` there and are omitted). -/

/-- The core-identity section of the system prompt (`lang_label` and the
language code are interpolated). -/
def prompt_core_identity (lang_label selected_language : String) : String :=
  "You are **SagarMitra** (सागरमित्र) — an AI-powered companion for Indian fishermen.\n\n" ++
  "You are friendly, practical, and deeply knowledgeable about:\n" ++
  "• Fishing techniques, species, seasons, and regulations in Indian coastal waters\n" ++
  "• Sea safety, weather patterns, and monsoon cycles\n" ++
  "• Government schemes for fishermen (PM Matsya Sampada Yojana, fishing bans, subsidies)\n" ++
  "• Basic boat maintenance and equipment care\n" ++
  "• Market prices, fish preservation, and supply chain tips\n\n" ++
  "**Personality**: Warm, respectful, uses simple language. Address the user like an older brother or fellow fisherman would. Use encouragement and practical wisdom. You may use cultural references and proverbs that Indian fishermen relate to.\n\n" ++
  "**Language rules**:\n" ++
  "- CRITICAL: You MUST ALWAYS respond entirely and exclusively in **" ++ lang_label ++ " (" ++ selected_language ++ ")**.\n" ++
  "- If a user asks a question in English but the selected language is " ++ lang_label ++ ", you MUST reply in " ++ lang_label ++ ".\n" ++
  "- DO NOT output English unless specifically asked to translate or if there is no equivalent technical word.\n" ++
  "- If the user writes in romanised/transliterated " ++ lang_label ++ " (e.g., Hinglish for Hindi), that is perfectly fine — respond using proper " ++ lang_label ++ " script.\n" ++
  "- Keep sentences short and clear — many users may have limited literacy.\n" ++
  "- Translate any tool outputs, market prices, and fish names into **" ++ lang_label ++ "** before showing them to the user.\n"

/-- The tool-usage guidance section of the system prompt. -/
def prompt_tools_section : String :=
  "## Tools\n" ++
  "You have access to the following tools. Use them proactively when the user's question relates to:\n" ++
  "• **get_weather** — sea conditions, wind, waves, rain forecast for a location\n" ++
  "• **get_catch_history** — the user's past catch records (images, species, location)\n" ++
  "• **get_map_data** — ocean zones, fishing markers, restricted areas\n" ++
  "• **get_market_prices** — current fish market prices at nearby ports\n\n" ++
  "When calling a tool, wait for the result before responding. Incorporate the result naturally into your reply.\n\n" ++
  "## Memory Extraction\n" ++
  "After answering, determine if the conversation reveals any **new permanent facts** about the user (e.g. home port, preferred fish species, boat type, family size, years of experience). If yes, you will be asked to extract them.\n"

/-- Embeds `build_system_prompt` (summary and memory blocks are included
only when truthy, i.e. present and non-empty). -/
def build_system_prompt (selected_language : String) (summary : Option String)
    (long_term_memory : Option String) : String :=
  let lang_label := (List.lookup selected_language LANGUAGE_LABELS).getD "English"
  let sections : List String :=
    [prompt_core_identity lang_label selected_language] ++
    (match summary with
     | some s => if s = "" then [] else ["## Earlier Conversation Summary\n" ++ s ++ "\n"]
     | none => []) ++
    (match long_term_memory with
     | some m => if m = "" then [] else ["## About This User (Long-Term Memory)\n" ++ m ++ "\n"]
     | none => []) ++
    [prompt_tools_section]
  String.intercalate "\n" sections

/- ───────────────────────────── Mock fallback ──────────────────────────────
   Embeds `_MOCK_RESPONSES_BY_LANG` and `_get_mock_response` from
   `src/agent/src/core/graph.py`. -/

/-- One language's five canned responses (`mock_set[0]` … `mock_set[4]`). -/
structure MockSet where
  m0 : String
  m1 : String
  m2 : String
  m3 : String
  m4 : String
deriving DecidableEq

/-- The English canned responses. -/
def MOCK_EN : MockSet :=
  ⟨"Based on current sea conditions near the Konkan coast, today is a good day for fishing! Wind speed is moderate at 3-4 m/s from the northwest. I recommend heading out early morning between 0400-0900 IST for the best catch. Indian Pomfret and Mackerel are in season. 🐟",
   "Namaste! The weather looks favorable for the next 3 days. Sea surface temperature is around 28°C which is ideal for Tuna and Seer Fish. However, please avoid venturing beyond 12 nautical miles as there are reports of rough patches further out. Stay safe! 🌊",
   "Great question! Based on recent market data, Pomfret is fetching ₹750-800/kg at Mumbai's Sassoon Docks. Surmai (Seer Fish) is at ₹700/kg with high demand. I'd suggest selling your Pomfret catch today while prices are up. For Mackerel, prices are stable at ₹200/kg. 💰",
   "The fishing ban period along the west coast (June 1 - July 31) doesn't apply to traditional non-mechanised boats. If you're using a motorised trawler, please ensure your license is current. The PM Matsya Sampada Yojana offers subsidies up to ₹3 lakh for equipment upgrades. Visit your district fisheries office for more details. 📋",
   "For the best catch quality, remember to ice your fish immediately after catching. Maintain a temperature of 0-4°C. Gut larger fish within 2 hours. Premium grade fish can earn you ₹120-200/kg more than Standard grade — that's a big difference over a season! 🧊"⟩

/-- The Tamil canned responses. -/
def MOCK_TA : MockSet :=
  ⟨"கொங்கன் கடற்கரைக்கு அருகிலுள்ள தற்போதைய கடல் நிலைமைகளின் அடிப்படையில், இன்று மீன்பிடிக்க ஒரு நல்ல நாள்! காற்றாலை மேற்கு திசையிலிருந்து 3-4 மீ/வி வேகத்தில் மிதமாக உள்ளது. சிறந்த பிடிப்பிற்காக காலை 0400-0900 IST க்கு இடையில் செல்வதற்கு பரிந்துரைக்கிறேன். பாம்ஃப்ரெட் மற்றும் கானாங்கெளுத்தி பருவத்தில் உள்ளன. 🐟",
   "நமஸ்காரம்! அடுத்த 3 நாட்களுக்கு வானிலை சாதகமாக தெரிகிறது. கடல் பரப்பளவு சுமார் 28°C வெப்பநிலையில் உள்ளது, இது சூரை மற்றும் சீலா மீன்களுக்கு ஏற்றது. இருந்தாலும், கடல் கொந்தளிப்பு அதிகமாக உள்ளதால் 12 கடல் மைல்களுக்கு அப்பால் செல்வதைத் தவிர்க்கவும். கவனமாகப் செல்லுங்கள்! 🌊",
   "நல்ல கேள்வி! சமீபத்திய சந்தை தரவுகளின் அடிப்படையில், மும்பையின் சாசூன் டாக்ஸில் பாம்ஃப்ரெட் ₹750-800/கிலோவுக்குச் செல்கிறது. அதிக தேவையுடன் சுறாமீன் (Seer Fish) ₹700/கிலோவில் உள்ளது. பாம்ஃப்ரெட் இன்றைய விலையில் விற்கப் பரிந்துரைக்கிறேன். கானாங்கெளுத்தி விலை ₹200/கிலோவில் நிலையாக உள்ளது. 💰",
   "பழமைவாத படகுகளுக்கு மீன்பிடி தடைக்காலம் (ஜூன் 1 - ஜூலை 31) பொருந்தாது. இயந்திரமயமாக்கப்பட்ட டிராலரை பயன்படுத்தினால், உரிமம் தற்போதையதில் உள்ளதா என்பதை உறுதிப்படுத்தவும். PM மத்ஸ்ய சம்பதா யோஜனா மானியங்களை வழங்குகிறது. 📋",
   "சிறந்த தரத்தை பெற, மீன்பிடித்தவுடன் உடனடியாக பனிக்கட்டியிடவும். 0-4°C வெப்பநிலையை பராமரிக்கவும். பெரிய மீன்களை 2 மணி நேரங்களுக்குள் துண்டிக்கவும். 🧊"⟩

/-- Embeds `_MOCK_RESPONSES_BY_LANG`: canned response sets exist only for
`"en"` and `"ta"`. -/
def MOCK_RESPONSES_BY_LANG : List (String × MockSet) :=
  [("en", MOCK_EN), ("ta", MOCK_TA)]

/-- ASCII lowering, as Python `str.lower()` acts on the ASCII letters
(the keyword sets below are all ASCII). -/
def to_lower_ascii (c : Char) : Char :=
  if 0x41 ≤ c.toNat && c.toNat ≤ 0x5A then Char.ofNat (c.toNat + 32) else c

/-- Whether `needle` occurs at the start of `hay`. -/
def list_starts (hay needle : List Char) : Bool :=
  match hay, needle with
  | _, [] => true
  | [], _ :: _ => false
  | a :: as, b :: bs => a = b && list_starts as bs

/-- Python's `needle in hay` substring test. -/
def list_has_sub (needle : List Char) : List Char → Bool
  | [] => list_starts [] needle
  | h :: t => list_starts (h :: t) needle || list_has_sub needle t

/-- Python's `any(w in lower for w in words)`. -/
def has_any_keyword (lower : List Char) (words : List String) : Bool :=
  words.any fun w => list_has_sub w.data lower

/-- Embeds `_get_mock_response`: keyword-routed canned response, with the
response set chosen by `_MOCK_RESPONSES_BY_LANG.get(language, english)`. -/
def get_mock_response (user_input : List Char) (language : String) : String :=
  let lower := user_input.map to_lower_ascii
  let mock_set := (List.lookup language MOCK_RESPONSES_BY_LANG).getD MOCK_EN
  if has_any_keyword lower ["weather", "wind", "wave", "rain", "storm", "sea condition"] then
    mock_set.m1
  else if has_any_keyword lower ["price", "market", "sell", "buy", "rate", "cost"] then
    mock_set.m2
  else if has_any_keyword lower ["regulation", "ban", "license", "scheme", "government", "subsidy"] then
    mock_set.m3
  else if has_any_keyword lower ["quality", "ice", "fresh", "preserve", "store", "grade"] then
    mock_set.m4
  else
    mock_set.m0

/- ───────────────────────── Orchestration state machine ────────────────────
   Embeds the LangGraph graph of `src/agent/src/core/graph.py` as a
   fuel-indexed interpreter.  External effects are an `Env` of oracles; an
   `.error` result models a raised exception.  The interpreter additionally
   records which nodes ran and which external calls were attempted. -/

/-- An entry of the turn's accumulated `tool_outputs` log. -/
structure ToolOutput where
  tool : String
  args : String
  result : String
deriving DecidableEq

/-- Embeds the `AgentState` TypedDict (`src/agent/src/core/state.py`); the
optional control fields start as `none` (absent). -/
structure AgentState where
  user_id : String
  conversation_id : String
  selected_language : String
  human_input : String
  messages : List Msg
  tool_outputs : List ToolOutput
  language_accepted : Option Bool := none
  language_rejection : Option String := none
  summary : Option String := none
  long_term_memory : Option String := none
deriving DecidableEq

/-- The external collaborators of one turn: the tool-bound chat model, the
tool registry (`TOOL_MAP`), and the Gemini text helper used by the memory
manager for summaries and fact extraction. -/
structure Env where
  llm : List Msg → Except String Msg
  tools : List (String × (String → Except String String))
  text_llm : String → Except String String

/-- External calls attempted during a turn, for the instrumentation of the
interpreter. -/
inductive Event where
  | modelInvoked
  | summarizerInvoked
  | toolInvoked : String → Event
  | memoryLLMInvoked
deriving DecidableEq

/-- The five graph nodes. -/
inductive Node where
  | language_guard
  | load_context
  | agent
  | tool_executor
  | memory_update
deriving DecidableEq

/-- The interpreter's running configuration: agent state, store, and the
log of attempted external calls. -/
structure World where
  state : AgentState
  store : Store
  events : List Event

/-- Embeds the `language_guard` node: validate the input and set the
acceptance flag; on rejection compose the canned message, prefixed by the
validation reason when that reason is truthy. -/
def run_language_guard (w : World) : World :=
  let text := w.state.human_input
  let lang := w.state.selected_language
  match validate_language text.data lang with
  | (true, _) =>
    { w with state := { w.state with language_accepted := some true, language_rejection := none } }
  | (false, reason) =>
    let rejection := get_rejection_message lang
    let rejection :=
      match reason with
      | some r => if r = "" then rejection else r ++ "\n\n" ++ rejection
      | none => rejection
    { w with state := { w.state with language_accepted := some false, language_rejection := some rejection } }

/-- Embeds the `load_context` node: build the message history, read the
user's long-term memory, compose the system prompt, and seed the running
message list. -/
def run_load_context (env : Env) (w : World) : World :=
  let r := build_message_history env.text_llm w.store w.state.conversation_id
  let ltm := get_long_term_memory r.store w.state.user_id
  let system_prompt :=
    build_system_prompt w.state.selected_language r.summary ltm
  let messages := Msg.system system_prompt :: (r.recent ++ [Msg.human w.state.human_input])
  { state := { w.state with messages := messages, summary := r.summary, long_term_memory := ltm },
    store := r.store,
    events := w.events ++ List.replicate r.llm_calls Event.summarizerInvoked }

/-- Embeds the `agent` node: attempt the model call; on any exception,
substitute the keyword-routed mock response (with no tool calls) instead of
failing the turn. -/
def run_agent (env : Env) (w : World) : World :=
  let lang := w.state.selected_language
  let events := w.events ++ [Event.modelInvoked]
  match env.llm w.state.messages with
  | .ok response =>
    { w with state := { w.state with messages := w.state.messages ++ [response] },
             events := events }
  | .error _ =>
    let mock_text := get_mock_response w.state.human_input.data lang
    { w with state := { w.state with messages := w.state.messages ++ [Msg.ai mock_text []] },
             events := events }

/-- The per-call dispatch inside `tool_executor`: unknown names and raised
exceptions each become a textual result for that call alone. -/
def exec_tool_call (tools : List (String × (String → Except String String)))
    (call : ToolCall) : String :=
  match List.lookup call.name tools with
  | some t =>
    match t call.args with
    | .ok r => r
    | .error e => "⚠️ Tool error: " ++ e
  | none => "⚠️ Unknown tool: " ++ call.name

/-- Embeds the `tool_executor` node: if the last message is an `AIMessage`
with tool calls, dispatch each call, append a `ToolMessage` per call, and
accumulate the (truncated) results into the turn's tool-output log;
otherwise leave the state unchanged. -/
def run_tool_executor (env : Env) (w : World) : World :=
  match w.state.messages.getLast? with
  | some (Msg.ai _ (c :: cs)) =>
    let calls := c :: cs
    { w with
      state := { w.state with
        messages := w.state.messages ++
          calls.map (fun call => Msg.tool (exec_tool_call env.tools call) call.id),
        tool_outputs := w.state.tool_outputs ++
          calls.map (fun call =>
            ⟨call.name, call.args, str_take 500 (exec_tool_call env.tools call)⟩) },
      events := w.events ++
        calls.filterMap (fun call =>
          if (List.lookup call.name env.tools).isSome then
            some (Event.toolInvoked call.name)
          else none) }
  | _ => w

/-- The last `AIMessage` with truthy content and no tool calls (the loop
shared by the `memory_update` node and the response extraction in
`routes/messages.py`). -/
def last_ai_text (messages : List Msg) : String :=
  match messages.reverse.find? (fun m =>
      match m with
      | Msg.ai c [] => c != ""
      | _ => false) with
  | some (Msg.ai c _) => c
  | _ => ""

/-- Embeds the `memory_update` node: run the fact extractor on the latest
exchange when a final AI response exists; exceptions from the extraction are
swallowed (`except Exception: pass`). -/
def run_memory_update (env : Env) (w : World) : World :=
  let ai_response := last_ai_text w.state.messages
  if ai_response = "" then w
  else
    { w with
      store := extract_and_update_long_term_memory env.text_llm w.store
        w.state.user_id w.state.human_input ai_response,
      events := w.events ++ [Event.memoryLLMInvoked] }

/-- Destination of the conditional edge after `language_guard`. -/
inductive LangRoute where
  | to_load_context
  | to_end
deriving DecidableEq

/-- Embeds `route_language`: continue only when `language_accepted` is
truthy. -/
def route_language (s : AgentState) : LangRoute :=
  if s.language_accepted = some true then .to_load_context else .to_end

/-- Destination of the conditional edge after `agent`. -/
inductive AgentRoute where
  | to_tool_executor
  | to_memory_update
deriving DecidableEq

/-- Embeds `route_agent`: tool calls on the last `AIMessage` continue the
tool loop; otherwise proceed to `memory_update`. -/
def route_agent (s : AgentState) : AgentRoute :=
  match s.messages.getLast? with
  | some (Msg.ai _ (_ :: _)) => .to_tool_executor
  | _ => .to_memory_update

/-- Run one node's function. -/
def run_node (env : Env) (n : Node) (w : World) : World :=
  match n with
  | .language_guard => run_language_guard w
  | .load_context => run_load_context env w
  | .agent => run_agent env w
  | .tool_executor => run_tool_executor env w
  | .memory_update => run_memory_update env w

/-- The edges added by `build_graph`: conditional edges after
`language_guard` and `agent`, the loop edge `tool_executor → agent`, and
termination after a rejection or after `memory_update`. -/
def next_node (n : Node) (s : AgentState) : Option Node :=
  match n with
  | .language_guard =>
    match route_language s with
    | .to_load_context => some .load_context
    | .to_end => none
  | .load_context => some .agent
  | .agent =>
    match route_agent s with
    | .to_tool_executor => some .tool_executor
    | .to_memory_update => some .memory_update
  | .tool_executor => some .agent
  | .memory_update => none

/-- The fuel-indexed graph interpreter; returns the final configuration and
the list of nodes that ran, in order.  (The source graph has no iteration
cap; fuel only truncates runs the source would loop on.) -/
def run_graph (env : Env) : Nat → Node → World → List Node → World × List Node
  | 0, _, w, visited => (w, visited)
  | Nat.succ fuel, n, w, visited =>
    let w' := run_node env n w
    match next_node n w'.state with
    | none => (w', visited ++ [n])
    | some n' => run_graph env fuel n' w' (visited ++ [n])

/-- A whole turn: the interpreter started at the entry point
`language_guard` with empty instrumentation. -/
def run_turn (env : Env) (fuel : Nat) (s0 : AgentState) (store : Store) :
    World × List Node :=
  run_graph env fuel .language_guard ⟨s0, store, []⟩ []

/-- The turn's response as extracted by `routes/messages.py`: the rejection
message when the guard rejected, otherwise the last final AI text (with the
source's apology fallback when none exists). -/
def turn_response (s : AgentState) : String :=
  if s.language_accepted = some true then
    let c := last_ai_text s.messages
    if c = "" then
      "I processed your request but couldn't generate a response. Please try again."
    else c
  else
    s.language_rejection.getD "Please use the selected language."

/- ───────────────────────── Message ordering keys ──────────────────────────
   Embeds the sort-key construction of `save_message` in
   `src/agent/src/memory/dynamodb_store.py`: a second-resolution ISO-8601
   UTC timestamp whose `.000Z` tail is replaced by `.<3 random hex chars>Z`.
   The clock reading and the random suffix are the function's external
   inputs and appear as parameters. -/

/-- The sort key assigned to a saved message: `second_iso` is the
`"%Y-%m-%dT%H:%M:%S"` part of the clock reading and `rand3` the three
random hex characters of the suffix. -/
def save_message_key (second_iso : String) (rand3 : String) : String :=
  second_iso ++ "." ++ rand3 ++ "Z"

/-- The sort order DynamoDB applies to the string range key (lexicographic
on the key's characters; the keys this system writes are ASCII, where
codepoint order and UTF-8 byte order agree). -/
def key_lt (a b : String) : Prop :=
  List.Lex (· < ·) a.data b.data

instance key_lt_decidable (a b : String) : Decidable (key_lt a b) := by
  unfold key_lt
  infer_instance

/- ───────────────────────────── Helper lemmas ───────────────────────────── -/

/-- Looking up a key right after `set_assoc` on that key yields the new value. -/
theorem lookup_set_assoc {β : Type} (k : String) (v : β) (l : List (String × β)) :
    List.lookup k (set_assoc k v l) = some v := by
  induction l with
  | nil => simp [set_assoc, List.lookup]
  | cons kv rest ih =>
    obtain ⟨k', v'⟩ := kv
    by_cases h : k' = k
    · subst h
      simp [set_assoc, List.lookup]
    · simp only [set_assoc, if_neg h, List.lookup]
      have hbeq : (k == k') = false := by
        simp only [beq_eq_false_iff_ne]
        exact fun hk => h hk.symm
      simp [hbeq, ih]

/-- `update_conversation_summary` leaves the message and memory tables
unchanged. -/
theorem update_conversation_summary_messages (st : Store) (cid s : String) :
    (update_conversation_summary st cid s).messages = st.messages ∧
    (update_conversation_summary st cid s).memory = st.memory := by
  cases h : List.lookup cid st.conversations <;>
    simp [update_conversation_summary, h]

/-- A list starting with an element that fails `p` is unchanged by
`dropWhile p`. -/
theorem dropWhile_eq_self_of_head_not {α : Type} (p : α → Bool) (l : List α)
    (h : ∀ a, l.head? = some a → p a = false) : l.dropWhile p = l := by
  cases l with
  | nil => rfl
  | cons a t =>
    rw [List.dropWhile_cons, if_neg]
    simp [h a rfl]

/-- If `dropWhile p` leaves a list unchanged, its head fails `p`. -/
theorem head_false_of_dropWhile_eq_self {α : Type} (p : α → Bool) (b : α)
    (t : List α) (hm : (b :: t).dropWhile p = b :: t) : p b = false := by
  by_cases hb : p b = true
  · rw [List.dropWhile_cons, if_pos hb] at hm
    have h1 : (t.dropWhile p).length ≤ t.length :=
      (List.dropWhile_suffix p).sublist.length_le
    rw [hm] at h1
    simp at h1
  · simpa using hb

/-- Dropping from the front after dropping from the back: if the front is
already clean, it stays clean. -/
theorem dropWhile_rdrop_while {α : Type} (p : α → Bool) (m : List α)
    (hm : m.dropWhile p = m) :
    (rdrop_while p m).dropWhile p = rdrop_while p m := by
  apply dropWhile_eq_self_of_head_not
  intro a ha
  rw [rdrop_while, List.head?_reverse] at ha
  obtain ⟨u, hu⟩ := List.dropWhile_suffix (l := m.reverse) p
  have hne : m.reverse.dropWhile p ≠ [] := by
    intro h0
    rw [h0] at ha
    simp at ha
  have h1 : (u ++ m.reverse.dropWhile p).getLast? =
      (m.reverse.dropWhile p).getLast? :=
    List.getLast?_append_of_ne_nil u hne
  rw [hu, List.getLast?_reverse, ha] at h1
  cases m with
  | nil => simp at h1
  | cons b t =>
    simp only [List.head?_cons, Option.some.injEq] at h1
    rw [← h1]
    exact head_false_of_dropWhile_eq_self p b t hm

/-- `rdrop_while` is idempotent. -/
theorem rdrop_while_idem {α : Type} (p : α → Bool) (l : List α) :
    rdrop_while p (rdrop_while p l) = rdrop_while p l := by
  simp [rdrop_while, List.reverse_reverse, List.dropWhile_idempotent]

/-- Python `str.strip()` is idempotent. -/
theorem pyStrip_idem (s : String) : pyStrip (pyStrip s) = pyStrip s := by
  unfold pyStrip
  have hdata : (String.mk (rdrop_while isPySpace (s.data.dropWhile isPySpace))).data =
      rdrop_while isPySpace (s.data.dropWhile isPySpace) := rfl
  rw [hdata]
  have hm : (s.data.dropWhile isPySpace).dropWhile isPySpace =
      s.data.dropWhile isPySpace := List.dropWhile_idempotent isPySpace s.data
  rw [dropWhile_rdrop_while isPySpace _ hm, rdrop_while_idem]


/-- The key order is irreflexive. -/
theorem key_lt_irrefl_data (l : List Char) : ¬ List.Lex (· < ·) l l := by
  induction l with
  | nil => intro h; cases h
  | cons a t ih =>
    intro h
    cases h with
    | cons h' => exact ih h'
    | rel h' => exact absurd h' (lt_irrefl a)

/-- Prepending a common block preserves the key order. -/
theorem key_lt_append_left (pre : List Char) {xs ys : List Char}
    (h : List.Lex (· < ·) xs ys) :
    List.Lex (· < ·) (pre ++ xs) (pre ++ ys) := by
  induction pre with
  | nil => exact h
  | cons c p ih => exact List.Lex.cons ih

/-- Key order between equal-length blocks survives arbitrary tails. -/
theorem key_lt_append_of_length_eq {xs ys : List Char} (as bs : List Char)
    (hlen : xs.length = ys.length) (h : List.Lex (· < ·) xs ys) :
    List.Lex (· < ·) (xs ++ as) (ys ++ bs) := by
  induction xs generalizing ys with
  | nil =>
    cases ys with
    | nil => cases h
    | cons y t => simp at hlen
  | cons x xt ih =>
    cases ys with
    | nil => cases h
    | cons y yt =>
      cases h with
      | cons h' => exact List.Lex.cons (ih (by simpa using hlen) h')
      | rel h' => exact List.Lex.rel h'

/-- Appending strings appends their character data. -/
theorem string_data_append (s t : String) : (s ++ t).data = s.data ++ t.data := by
  cases s; cases t; rfl

/-- If some detected script is neither `"latin"` nor acceptable, the script
loop rejects, and its rejection reason names such a script. -/
theorem check_scripts_foreign (names acceptable : List String) (lang : String)
    (hex : ∃ s ∈ names, s ≠ "latin" ∧ acceptable.contains s = false) :
    (check_scripts names acceptable lang).fst = false ∧
    ∃ s ∈ names, s ≠ "latin" ∧ acceptable.contains s = false ∧
      check_scripts names acceptable lang = (false, some (reject_reason s lang)) := by
  induction names with
  | nil =>
    obtain ⟨s, hs, _⟩ := hex
    cases hs
  | cons a rest ih =>
    obtain ⟨s, hs, hsl, hsc⟩ := hex
    by_cases ha : a = "latin"
    · have hs' : s ∈ rest := by
        rcases List.mem_cons.mp hs with rfl | h'
        · exact absurd ha hsl
        · exact h'
      have hrec := ih ⟨s, hs', hsl, hsc⟩
      obtain ⟨h1, s', hmem', hl', hc', heq'⟩ := hrec
      rw [show check_scripts (a :: rest) acceptable lang =
            check_scripts rest acceptable lang by
          simp [check_scripts, ha]]
      exact ⟨h1, s', List.mem_cons_of_mem a hmem', hl', hc', heq'⟩
    · by_cases hacc : acceptable.contains a = true
      · have hs' : s ∈ rest := by
          rcases List.mem_cons.mp hs with rfl | h'
          · rw [hacc] at hsc; cases hsc
          · exact h'
        have hrec := ih ⟨s, hs', hsl, hsc⟩
        obtain ⟨h1, s', hmem', hl', hc', heq'⟩ := hrec
        rw [show check_scripts (a :: rest) acceptable lang =
              check_scripts rest acceptable lang by
            show (if a = "latin" then check_scripts rest acceptable lang
              else if acceptable.contains a then check_scripts rest acceptable lang
              else (false, some (reject_reason a lang))) = _
            rw [if_neg ha, if_pos hacc]]
        exact ⟨h1, s', List.mem_cons_of_mem a hmem', hl', hc', heq'⟩
      · have heq : check_scripts (a :: rest) acceptable lang =
            (false, some (reject_reason a lang)) := by
          show (if a = "latin" then check_scripts rest acceptable lang
            else if acceptable.contains a then check_scripts rest acceptable lang
            else (false, some (reject_reason a lang))) = _
          rw [if_neg ha, if_neg hacc]
        exact ⟨by rw [heq], a, List.mem_cons_self a rest, ha,
          Bool.eq_false_iff.mpr hacc, heq⟩

/-- A script with a matching character in the text appears among the
detected script names. -/
theorem mem_detect_scripts (text : List Char) (sc : String) (p : Char → Bool)
    (hpat : (sc, p) ∈ SCRIPT_PATTERNS) (c : Char) (hc : c ∈ text)
    (hp : p c = true) : sc ∈ (detect_scripts text).map Prod.fst := by
  have hmem : c ∈ text.filter p := List.mem_filter.mpr ⟨hc, hp⟩
  have hpos : (text.filter p).length > 0 :=
    List.length_pos.mpr (List.ne_nil_of_mem hmem)
  have hin : (sc, (text.filter p).length) ∈ detect_scripts text := by
    apply List.mem_filterMap.mpr
    refine ⟨(sc, p), hpat, ?_⟩
    simp only
    rw [if_pos hpos]
  exact List.mem_map.mpr ⟨(sc, (text.filter p).length), hin, rfl⟩

/-- Core of the foreign-script rejection argument: with at least three
meaningful characters and a detected script that is neither Latin nor in
the acceptable set, `validate_language` rejects and its reason names a
detected foreign script. -/
theorem validate_rejects_detected_foreign (text : List Char) (lang : String)
    (sc : String) (hmem : sc ∈ (detect_scripts text).map Prod.fst)
    (hnl : sc ≠ "latin")
    (hforeign : ((List.lookup lang LANGUAGE_SCRIPTS).getD ["latin"]).contains sc = false)
    (hlen : 3 ≤ (strip_noise text).length) :
    (validate_language text lang).fst = false ∧
    ∃ s ∈ (detect_scripts text).map Prod.fst, s ≠ "latin" ∧
      ((List.lookup lang LANGUAGE_SCRIPTS).getD ["latin"]).contains s = false ∧
      validate_language text lang = (false, some (reject_reason s lang)) := by
  have hne : (detect_scripts text).map Prod.fst ≠ [] := List.ne_nil_of_mem hmem
  have hnla : (detect_scripts text).map Prod.fst ≠ ["latin"] := by
    intro h
    rw [h] at hmem
    simp at hmem
    exact hnl hmem
  have hcs := check_scripts_foreign ((detect_scripts text).map Prod.fst)
    ((List.lookup lang LANGUAGE_SCRIPTS).getD ["latin"]) lang ⟨sc, hmem, hnl, hforeign⟩
  have hval : validate_language text lang =
      check_scripts ((detect_scripts text).map Prod.fst)
        ((List.lookup lang LANGUAGE_SCRIPTS).getD ["latin"]) lang := by
    unfold validate_language
    rw [if_neg (by omega : ¬ (strip_noise text).length < 3)]
    rw [if_neg hne, if_neg hnla]
  rw [hval]
  exact hcs

/-- Looking up a key absent from an association list yields `none`. -/
theorem lookup_none_of_keys_ne {β : Type} (k : String) (l : List (String × β))
    (h : ∀ kv ∈ l, kv.1 ≠ k) : List.lookup k l = none := by
  induction l with
  | nil => rfl
  | cons kv rest ih =>
    obtain ⟨k', v'⟩ := kv
    have hk : k' ≠ k := h (k', v') (List.mem_cons_self _ _)
    have hbeq : (k == k') = false :=
      beq_eq_false_iff_ne.mpr fun he => hk he.symm
    simp only [List.lookup, hbeq]
    exact ih fun kv hm => h kv (List.mem_cons_of_mem _ hm)

/- ───────────────────────────── Claim theorems ──────────────────────────── -/

/-- Claim C7: for every input whose meaningful length — measured after
stripping whitespace, digits, punctuation, and pictographic symbols — is
under 3 characters, `validate_language` accepts regardless of the selected
language. -/
theorem C7_short_input_always_accepted (text : List Char) (lang : String)
    (h : (strip_noise text).length < 3) :
    validate_language text lang = (true, none) := by
  unfold validate_language
  rw [if_pos h]

/-- Witness for C7 at a concrete input: `"ok"` has 2 meaningful characters
and is accepted for selected language `"ta"`. -/
theorem C7_short_input_always_accepted_witness :
    (strip_noise "ok".data).length < 3 ∧
    validate_language "ok".data "ta" = (true, none) :=
  ⟨by decide, C7_short_input_always_accepted "ok".data "ta" (by decide)⟩

/-- Claim C6, counterexample: the single Tamil character `த` is a character
of a recognized script (`tamil`) that is neither Hindi's native script
(`devanagari`) nor Latin, yet `validate_language` accepts it for selected
language `"hi"`, because its meaningful length (1) is under 3.  The claim
as stated (rejection for *any* input containing a foreign-script
character) is therefore false. -/
theorem C6_counterexample_short_foreign_accepted :
    detect_scripts ['த'] = [("tamil", 1)] ∧
    ((List.lookup "hi" LANGUAGE_SCRIPTS).getD ["latin"]).contains "tamil" = false ∧
    validate_language ['த'] "hi" = (true, none) := by
  refine ⟨?_, by decide, by decide⟩
  show SCRIPT_PATTERNS.filterMap _ = _
  simp only [SCRIPT_PATTERNS, List.filterMap_cons]
  decide

/-- Claim C6 (amended): for every selected language and every input with at
least 3 meaningful characters that contains a character of a recognized
script which is neither Latin nor in the selected language's allowed-script
set, `validate_language` rejects, and the rejection reason names a detected
foreign script together with the selected language's label. -/
theorem C6_foreign_script_rejected (text : List Char) (lang sc : String)
    (p : Char → Bool) (c : Char)
    (hpat : (sc, p) ∈ SCRIPT_PATTERNS) (hc : c ∈ text) (hp : p c = true)
    (hnl : sc ≠ "latin")
    (hforeign : ((List.lookup lang LANGUAGE_SCRIPTS).getD ["latin"]).contains sc = false)
    (hlen : 3 ≤ (strip_noise text).length) :
    (validate_language text lang).fst = false ∧
    ∃ s ∈ (detect_scripts text).map Prod.fst, s ≠ "latin" ∧
      ((List.lookup lang LANGUAGE_SCRIPTS).getD ["latin"]).contains s = false ∧
      validate_language text lang = (false, some (reject_reason s lang)) :=
  validate_rejects_detected_foreign text lang sc
    (mem_detect_scripts text sc p hpat c hc hp) hnl hforeign hlen

/-- Witness for C6 (amended) at a concrete input: three Tamil characters
with selected language `"hi"` are rejected with a reason naming `tamil`
and Hindi. -/
theorem C6_foreign_script_rejected_witness :
    (validate_language "தமி".data "hi").fst = false ∧
    ∃ s ∈ (detect_scripts "தமி".data).map Prod.fst, s ≠ "latin" ∧
      ((List.lookup "hi" LANGUAGE_SCRIPTS).getD ["latin"]).contains s = false ∧
      validate_language "தமி".data "hi" = (false, some (reject_reason s "hi")) :=
  C6_foreign_script_rejected "தமி".data "hi" "tamil"
    (fun c => inRange c 0x0B80 0x0BFF) 'த'
    (by simp [SCRIPT_PATTERNS]) (by decide) (by decide)
    (by decide) (by decide) (by decide)

/-- Claim C10: for every selected-language code outside the ten supported
codes, `validate_language` treats Latin as the only acceptable script — so
any input of at least 3 meaningful characters containing a character of a
recognized non-Latin script is rejected — and `get_rejection_message`
falls back to the English rejection text. -/
theorem C10_unknown_lang_latin_only (text : List Char) (lang sc : String)
    (p : Char → Bool) (c : Char)
    (hlang : lang ∉ ["en", "hi", "mr", "ml", "ta", "te", "kn", "bn", "gu", "or"])
    (hpat : (sc, p) ∈ SCRIPT_PATTERNS) (hc : c ∈ text) (hp : p c = true)
    (hnl : sc ≠ "latin")
    (hlen : 3 ≤ (strip_noise text).length) :
    (List.lookup lang LANGUAGE_SCRIPTS).getD ["latin"] = ["latin"] ∧
    (validate_language text lang).fst = false ∧
    get_rejection_message lang =
      "I can only understand English. Please write your message in English. 🙏" := by
  have hkeys1 : List.lookup lang LANGUAGE_SCRIPTS = none := by
    apply lookup_none_of_keys_ne
    intro kv hkv heq
    apply hlang
    rw [← heq]
    have h1 : kv.1 ∈ LANGUAGE_SCRIPTS.map Prod.fst := List.mem_map_of_mem _ hkv
    simpa [LANGUAGE_SCRIPTS] using h1
  have hkeys2 : List.lookup lang REJECTION_MESSAGES = none := by
    apply lookup_none_of_keys_ne
    intro kv hkv heq
    apply hlang
    rw [← heq]
    have h1 : kv.1 ∈ REJECTION_MESSAGES.map Prod.fst := List.mem_map_of_mem _ hkv
    simpa [REJECTION_MESSAGES] using h1
  have hget : (List.lookup lang LANGUAGE_SCRIPTS).getD ["latin"] = ["latin"] := by
    rw [hkeys1]; rfl
  have hforeign : ((List.lookup lang LANGUAGE_SCRIPTS).getD ["latin"]).contains sc = false := by
    rw [hget]
    simp [hnl]
  refine ⟨hget, ?_, ?_⟩
  · exact (validate_rejects_detected_foreign text lang sc
      (mem_detect_scripts text sc p hpat c hc hp) hnl hforeign hlen).1
  · unfold get_rejection_message
    rw [hkeys2]
    rfl

/-- Witness for C10 at a concrete input: unsupported code `"fr"` with a
three-character Devanagari input is rejected, and the rejection message is
the English one. -/
theorem C10_unknown_lang_latin_only_witness :
    (List.lookup "fr" LANGUAGE_SCRIPTS).getD ["latin"] = ["latin"] ∧
    (validate_language "नमस".data "fr").fst = false ∧
    get_rejection_message "fr" =
      "I can only understand English. Please write your message in English. 🙏" :=
  C10_unknown_lang_latin_only "नमस".data "fr" "devanagari"
    (fun c => inRange c 0x0900 0x097F) 'न' (by decide)
    (by simp [SCRIPT_PATTERNS]) (by decide) (by decide) (by decide) (by decide)

/-- Claim C1, code-bug evidence: when the model call inside the memory
extractor raises, `_call_bedrock_for_text` returns the *non-empty* fallback
string `"(Summary unavailable — LLM not configured)"`, so
`extract_and_update_long_term_memory` persists that placeholder as the
user's fact blob — overwriting the previously stored durable facts instead
of leaving them unchanged. -/
theorem C1_failed_extraction_overwrites_facts :
    get_long_term_memory
      (extract_and_update_long_term_memory (fun _ => Except.error "ConnectionError")
        ⟨[], [], [("user-1", "- Home port: Mumbai")]⟩ "user-1"
        "What is the weather today?" "It looks calm near the coast.")
      "user-1" = some "(Summary unavailable — LLM not configured)" ∧
    some "(Summary unavailable — LLM not configured)" ≠
      (some "- Home port: Mumbai" : Option String) := by
  constructor
  · rfl
  · decide

/-- Unfolding `pyOr` on a present value. -/
theorem pyOr_some (x d : String) : pyOr (some x) d = if x = "" then d else x := rfl

/-- One step of the extractor, with the model-call result substituted. -/
theorem extract_step (llm : String → Except String String) (st : Store)
    (uid um ar : String)
    (hecho : llm (extraction_prompt
        (pyOr (get_long_term_memory st uid) NO_FACTS_PLACEHOLDER) um ar) =
      Except.ok (pyOr (get_long_term_memory st uid) NO_FACTS_PLACEHOLDER)) :
    extract_and_update_long_term_memory llm st uid um ar =
      if pyStrip (pyOr (get_long_term_memory st uid) NO_FACTS_PLACEHOLDER) ≠ "" then
        update_long_term_memory st uid
          (pyStrip (pyOr (get_long_term_memory st uid) NO_FACTS_PLACEHOLDER))
      else st := by
  simp only [extract_and_update_long_term_memory]
  rw [show call_bedrock_for_text llm (extraction_prompt
      (pyOr (get_long_term_memory st uid) NO_FACTS_PLACEHOLDER) um ar) =
      pyOr (get_long_term_memory st uid) NO_FACTS_PLACEHOLDER by
    unfold call_bedrock_for_text
    rw [hecho]]

/-- Claim C9: memory merge is idempotent under the extraction-prompt
contract.  If the model echoes the existing fact list unchanged (the
"no genuinely new facts" case of the prompt) on both invocations of the
extractor for the same exchange, then the second invocation leaves the
stored fact blob exactly as it found it. -/
theorem C9_memory_merge_idempotent (llm : String → Except String String)
    (st : Store) (uid um ar : String)
    (hecho1 : llm (extraction_prompt
        (pyOr (get_long_term_memory st uid) NO_FACTS_PLACEHOLDER) um ar) =
      Except.ok (pyOr (get_long_term_memory st uid) NO_FACTS_PLACEHOLDER))
    (hecho2 : llm (extraction_prompt
        (pyOr (get_long_term_memory
          (extract_and_update_long_term_memory llm st uid um ar) uid)
          NO_FACTS_PLACEHOLDER) um ar) =
      Except.ok (pyOr (get_long_term_memory
        (extract_and_update_long_term_memory llm st uid um ar) uid)
        NO_FACTS_PLACEHOLDER)) :
    get_long_term_memory
      (extract_and_update_long_term_memory llm
        (extract_and_update_long_term_memory llm st uid um ar) uid um ar) uid =
    get_long_term_memory
      (extract_and_update_long_term_memory llm st uid um ar) uid := by
  set st1 := extract_and_update_long_term_memory llm st uid um ar with hdef
  have hstep1 := extract_step llm st uid um ar hecho1
  have hstep2 := extract_step llm st1 uid um ar hecho2
  rw [hstep2]
  by_cases h1 : pyStrip (pyOr (get_long_term_memory st uid) NO_FACTS_PLACEHOLDER) = ""
  · -- the first call stored nothing, so the second sees the original state
    have hst1 : st1 = st := by
      rw [hdef, hstep1, if_neg (by simpa using h1)]
    rw [if_neg (by rw [hst1]; simpa using h1)]
  · -- the first call stored the stripped echo; the second rewrites it in place
    have hst1 : st1 = update_long_term_memory st uid
        (pyStrip (pyOr (get_long_term_memory st uid) NO_FACTS_PLACEHOLDER)) := by
      rw [hdef, hstep1, if_pos (by simpa using h1)]
    have hget1 : get_long_term_memory st1 uid =
        some (pyStrip (pyOr (get_long_term_memory st uid) NO_FACTS_PLACEHOLDER)) := by
      rw [hst1]
      exact lookup_set_assoc uid _ st.memory
    have hpy2 : pyOr (get_long_term_memory st1 uid) NO_FACTS_PLACEHOLDER =
        pyStrip (pyOr (get_long_term_memory st uid) NO_FACTS_PLACEHOLDER) := by
      rw [hget1, pyOr_some, if_neg h1]
    rw [hpy2, pyStrip_idem, if_pos (by simpa using h1), hget1]
    exact lookup_set_assoc uid _ _

/-- Witness for C9 at a concrete input: an echoing model and a user whose
stored facts are `"- Prefers pomfret."`; running the extractor twice leaves
the blob exactly as the second run found it. -/
theorem C9_memory_merge_idempotent_witness :
    get_long_term_memory
      (extract_and_update_long_term_memory (fun _ => Except.ok "- Prefers pomfret.")
        (extract_and_update_long_term_memory (fun _ => Except.ok "- Prefers pomfret.")
          ⟨[], [], [("u1", "- Prefers pomfret.")]⟩ "u1" "I fish near Kochi" "Good luck!")
        "u1" "I fish near Kochi" "Good luck!") "u1" =
    get_long_term_memory
      (extract_and_update_long_term_memory (fun _ => Except.ok "- Prefers pomfret.")
        ⟨[], [], [("u1", "- Prefers pomfret.")]⟩ "u1" "I fish near Kochi" "Good luck!")
      "u1" :=
  C9_memory_merge_idempotent (fun _ => Except.ok "- Prefers pomfret.")
    ⟨[], [], [("u1", "- Prefers pomfret.")]⟩ "u1" "I fish near Kochi" "Good luck!"
    (by rfl) (by rfl)

/-- Claim C4: tool-call isolation.  For a round whose last message carries
tool calls, the executor (a total function — the round never raises)
appends exactly one `ToolMessage` per call whose content is computed from
that call alone: a tool result on success, `"⚠️ Tool error: …"` when the
tool raises, and `"⚠️ Unknown tool: …"` for an unknown name; sibling calls
are unaffected, and every result also lands (truncated) in the tool-output
log. -/
theorem C4_tool_executor_isolates_failures (env : Env) (w : World)
    (content : String) (calls : List ToolCall)
    (hlast : w.state.messages.getLast? = some (Msg.ai content calls))
    (hne : calls ≠ []) :
    (run_tool_executor env w).state.messages = w.state.messages ++
      calls.map (fun call => Msg.tool (exec_tool_call env.tools call) call.id) ∧
    (run_tool_executor env w).state.tool_outputs = w.state.tool_outputs ++
      calls.map (fun call =>
        ⟨call.name, call.args, str_take 500 (exec_tool_call env.tools call)⟩) ∧
    ∀ call ∈ calls,
      (List.lookup call.name env.tools = none →
        exec_tool_call env.tools call = "⚠️ Unknown tool: " ++ call.name) ∧
      ∀ f, List.lookup call.name env.tools = some f →
        (∀ e, f call.args = Except.error e →
          exec_tool_call env.tools call = "⚠️ Tool error: " ++ e) ∧
        (∀ r, f call.args = Except.ok r → exec_tool_call env.tools call = r) := by
  obtain ⟨c, cs, rfl⟩ := List.exists_cons_of_ne_nil hne
  refine ⟨?_, ?_, ?_⟩
  · simp only [run_tool_executor, hlast]
  · simp only [run_tool_executor, hlast]
  · intro call _
    constructor
    · intro hnone
      unfold exec_tool_call
      rw [hnone]
    · intro f hf
      constructor
      · intro e he
        unfold exec_tool_call
        rw [hf]
        show (match f call.args with
          | Except.ok r => r
          | Except.error e => "⚠️ Tool error: " ++ e) = _
        rw [he]
      · intro r hr
        unfold exec_tool_call
        rw [hf]
        show (match f call.args with
          | Except.ok r => r
          | Except.error e => "⚠️ Tool error: " ++ e) = _
        rw [hr]

/-- Witness for C4 at a concrete round: a registry with one succeeding tool
and one failing tool, plus a call to an unregistered name, dispatched
together; the failing and unknown entries become error strings while the
succeeding entry yields its normal output, and the round completes. -/
theorem C4_tool_executor_isolates_failures_witness :
    (run_tool_executor
      ⟨fun _ => Except.error "unused",
       [("get_weather", fun a => Except.ok ("sunny at " ++ a)),
        ("get_market_prices", fun _ => Except.error "boom")],
       fun _ => Except.error "unused"⟩
      ⟨⟨"u1", "c1", "en", "hi", [Msg.ai "x"
          [⟨"get_market_prices", "kochi", "id1"⟩,
           ⟨"get_weather", "kochi", "id2"⟩,
           ⟨"no_such_tool", "kochi", "id3"⟩]], [], some true, none, none, none⟩,
        ⟨[], [], []⟩, []⟩).state.messages =
      [Msg.ai "x"
          [⟨"get_market_prices", "kochi", "id1"⟩,
           ⟨"get_weather", "kochi", "id2"⟩,
           ⟨"no_such_tool", "kochi", "id3"⟩],
       Msg.tool "⚠️ Tool error: boom" "id1",
       Msg.tool "sunny at kochi" "id2",
       Msg.tool "⚠️ Unknown tool: no_such_tool" "id3"] := by
  have h := C4_tool_executor_isolates_failures
    ⟨fun _ => Except.error "unused",
     [("get_weather", fun a => Except.ok ("sunny at " ++ a)),
      ("get_market_prices", fun _ => Except.error "boom")],
     fun _ => Except.error "unused"⟩
    ⟨⟨"u1", "c1", "en", "hi", [Msg.ai "x"
        [⟨"get_market_prices", "kochi", "id1"⟩,
         ⟨"get_weather", "kochi", "id2"⟩,
         ⟨"no_such_tool", "kochi", "id3"⟩]], [], some true, none, none, none⟩,
      ⟨[], [], []⟩, []⟩
    "x"
    [⟨"get_market_prices", "kochi", "id1"⟩,
     ⟨"get_weather", "kochi", "id2"⟩,
     ⟨"no_such_tool", "kochi", "id3"⟩]
    (by rfl) (by decide)
  rw [h.1]
  rfl

/-- Claim C3, counterexample to "in the selected language": canned response
sets exist only for `"en"` and `"ta"`, so for selected language `"hi"` the
fallback router returns the *English* weather response — the keyword-routed
reply is not in the selected language for the other eight supported codes. -/
theorem C3_counterexample_fallback_language :
    List.lookup "hi" MOCK_RESPONSES_BY_LANG = none ∧
    get_mock_response "weather kaisa hai?".data "hi" = MOCK_EN.m1 ∧
    MOCK_EN.m1 ≠ MOCK_TA.m1 := by
  refine ⟨by rfl, by rfl, by decide⟩

/-- Claim C3 (amended): if the model invocation in the `agent` node fails
for any reason, the turn does not fail: the keyword-routed canned response
for the selected language's response set (the English set when the selected
language has none) is appended as a normal final `AIMessage` with no tool
calls, the router then proceeds to `memory_update` (not the tool loop), and
neither the store nor the tool-output log is touched. -/
theorem C3_agent_fallback_on_model_failure (env : Env) (w : World) (e : String)
    (hfail : env.llm w.state.messages = Except.error e) :
    (run_agent env w).state.messages = w.state.messages ++
      [Msg.ai (get_mock_response w.state.human_input.data
        w.state.selected_language) []] ∧
    route_agent (run_agent env w).state = AgentRoute.to_memory_update ∧
    (run_agent env w).store = w.store ∧
    (run_agent env w).state.tool_outputs = w.state.tool_outputs ∧
    (run_agent env w).events = w.events ++ [Event.modelInvoked] := by
  refine ⟨?_, ?_, ?_, ?_, ?_⟩
  · simp [run_agent, hfail]
  · simp [run_agent, hfail, route_agent, List.getLast?_concat]
  · simp [run_agent, hfail]
  · simp [run_agent, hfail]
  · simp [run_agent, hfail]

/-- Witness for C3 at the spec's end-to-end scenario 2: selected language
`"en"`, input `"What's the weather like?"`, model unavailable — the turn
completes with the weather-themed canned response as a final answer, no
tool-call round follows, and the tool-output log stays empty. -/
theorem C3_agent_fallback_on_model_failure_witness :
    (run_agent ⟨fun _ => Except.error "QuotaExceeded", [], fun _ => Except.error "x"⟩
      ⟨⟨"u1", "c1", "en", "What's the weather like?", [Msg.human "What's the weather like?"],
        [], some true, none, none, none⟩, ⟨[], [], []⟩, []⟩).state.messages =
      [Msg.human "What's the weather like?", Msg.ai MOCK_EN.m1 []] ∧
    route_agent (run_agent ⟨fun _ => Except.error "QuotaExceeded", [], fun _ => Except.error "x"⟩
      ⟨⟨"u1", "c1", "en", "What's the weather like?", [Msg.human "What's the weather like?"],
        [], some true, none, none, none⟩, ⟨[], [], []⟩, []⟩).state =
      AgentRoute.to_memory_update ∧
    (run_agent ⟨fun _ => Except.error "QuotaExceeded", [], fun _ => Except.error "x"⟩
      ⟨⟨"u1", "c1", "en", "What's the weather like?", [Msg.human "What's the weather like?"],
        [], some true, none, none, none⟩, ⟨[], [], []⟩, []⟩).state.tool_outputs = [] := by
  have h := C3_agent_fallback_on_model_failure
    ⟨fun _ => Except.error "QuotaExceeded", [], fun _ => Except.error "x"⟩
    ⟨⟨"u1", "c1", "en", "What's the weather like?", [Msg.human "What's the weather like?"],
      [], some true, none, none, none⟩, ⟨[], [], []⟩, []⟩
    "QuotaExceeded" (by rfl)
  refine ⟨?_, h.2.1, ?_⟩
  · rw [h.1]
    rfl
  · rw [h.2.2.2.1]

/-- Claim C5: for a conversation with more than `SHORT_TERM_MESSAGE_LIMIT`
messages (within the 500-message fetch cap) and no cached summary, building
the history produces a non-null summary (one summarizer call), persists it
onto the conversation record, and — provided the summarizer's text is
non-empty — a second build under the unchanged state returns the cached
summary with zero summarizer calls and an untouched store. -/
theorem C5_build_history_caches_summary (llm : String → Except String String)
    (st : Store) (cid : String) (c : ConvRecord)
    (hconv : get_conversation st cid = some c)
    (hsum : c.summary = "")
    (hlen : SHORT_TERM_MESSAGE_LIMIT < ((List.lookup cid st.messages).getD []).length)
    (hcap : ((List.lookup cid st.messages).getD []).length ≤ 500)
    (hne : summarize_messages llm (((List.lookup cid st.messages).getD []).take
      (((List.lookup cid st.messages).getD []).length - SHORT_TERM_MESSAGE_LIMIT)) ≠ "") :
    (build_message_history llm st cid).summary =
      some (summarize_messages llm (((List.lookup cid st.messages).getD []).take
        (((List.lookup cid st.messages).getD []).length - SHORT_TERM_MESSAGE_LIMIT))) ∧
    (build_message_history llm st cid).llm_calls = 1 ∧
    get_conversation (build_message_history llm st cid).store cid =
      some { c with summary := summarize_messages llm
                      (((List.lookup cid st.messages).getD []).take
                        (((List.lookup cid st.messages).getD []).length -
                          SHORT_TERM_MESSAGE_LIMIT)) } ∧
    (build_message_history llm (build_message_history llm st cid).store cid).summary =
      (build_message_history llm st cid).summary ∧
    (build_message_history llm (build_message_history llm st cid).store cid).llm_calls = 0 ∧
    (build_message_history llm (build_message_history llm st cid).store cid).store =
      (build_message_history llm st cid).store := by
  set M := (List.lookup cid st.messages).getD [] with hMdef
  set s := summarize_messages llm (M.take (M.length - SHORT_TERM_MESSAGE_LIMIT)) with hsdef
  have hM : get_messages st cid 500 = M := by
    unfold get_messages
    rw [← hMdef]
    exact List.take_of_length_le hcap
  have hb1 : build_message_history llm st cid =
      ⟨to_langchain_messages (M.drop (M.length - SHORT_TERM_MESSAGE_LIMIT)), some s,
       update_conversation_summary st cid s, 1⟩ := by
    simp [build_message_history, hM, hconv, hsum, hlen, ← hsdef]
  have hmsg' : (update_conversation_summary st cid s).messages = st.messages :=
    (update_conversation_summary_messages st cid s).1
  have hlook : List.lookup cid st.conversations = some c := hconv
  have hconv' : get_conversation (update_conversation_summary st cid s) cid =
      some { c with summary := s } := by
    unfold update_conversation_summary
    rw [hlook]
    exact lookup_set_assoc cid _ st.conversations
  have hM2 : get_messages (update_conversation_summary st cid s) cid 500 = M := by
    unfold get_messages
    rw [hmsg', ← hMdef]
    exact List.take_of_length_le hcap
  have hb2 : build_message_history llm (update_conversation_summary st cid s) cid =
      ⟨to_langchain_messages (M.drop (M.length - SHORT_TERM_MESSAGE_LIMIT)), some s,
       update_conversation_summary st cid s, 0⟩ := by
    simp [build_message_history, hM2, hconv', hne, hlen]
  rw [hb1]
  exact ⟨rfl, rfl, hconv', by rw [hb2], by rw [hb2], by rw [hb2]⟩

/-- Witness for C5 at a concrete input: a conversation with 11 stored
messages and an empty cached summary; the first build generates and
persists the summary, the second reuses it with zero summarizer calls. -/
theorem C5_build_history_caches_summary_witness :
    (build_message_history (fun _ => Except.ok "SUM")
      ⟨[("c1", ⟨"u1", "New Chat", "en", "", 0⟩)],
       [("c1", List.replicate 11 ⟨"user", "hello"⟩)], []⟩ "c1").summary =
      some (summarize_messages (fun _ => Except.ok "SUM")
        (((List.lookup "c1" (⟨[("c1", ⟨"u1", "New Chat", "en", "", 0⟩)],
            [("c1", List.replicate 11 ⟨"user", "hello"⟩)], []⟩ : Store).messages).getD []).take
          (((List.lookup "c1" (⟨[("c1", ⟨"u1", "New Chat", "en", "", 0⟩)],
            [("c1", List.replicate 11 ⟨"user", "hello"⟩)], []⟩ : Store).messages).getD []).length -
            SHORT_TERM_MESSAGE_LIMIT))) ∧
    (build_message_history (fun _ => Except.ok "SUM")
      ⟨[("c1", ⟨"u1", "New Chat", "en", "", 0⟩)],
       [("c1", List.replicate 11 ⟨"user", "hello"⟩)], []⟩ "c1").llm_calls = 1 ∧
    get_conversation (build_message_history (fun _ => Except.ok "SUM")
      ⟨[("c1", ⟨"u1", "New Chat", "en", "", 0⟩)],
       [("c1", List.replicate 11 ⟨"user", "hello"⟩)], []⟩ "c1").store "c1" =
      some { (⟨"u1", "New Chat", "en", "", 0⟩ : ConvRecord) with
              summary := summarize_messages (fun _ => Except.ok "SUM")
                (((List.lookup "c1" (⟨[("c1", ⟨"u1", "New Chat", "en", "", 0⟩)],
                    [("c1", List.replicate 11 ⟨"user", "hello"⟩)], []⟩ : Store).messages).getD []).take
                  (((List.lookup "c1" (⟨[("c1", ⟨"u1", "New Chat", "en", "", 0⟩)],
                    [("c1", List.replicate 11 ⟨"user", "hello"⟩)], []⟩ : Store).messages).getD []).length -
                    SHORT_TERM_MESSAGE_LIMIT)) } ∧
    (build_message_history (fun _ => Except.ok "SUM")
      (build_message_history (fun _ => Except.ok "SUM")
        ⟨[("c1", ⟨"u1", "New Chat", "en", "", 0⟩)],
         [("c1", List.replicate 11 ⟨"user", "hello"⟩)], []⟩ "c1").store "c1").summary =
      (build_message_history (fun _ => Except.ok "SUM")
        ⟨[("c1", ⟨"u1", "New Chat", "en", "", 0⟩)],
         [("c1", List.replicate 11 ⟨"user", "hello"⟩)], []⟩ "c1").summary ∧
    (build_message_history (fun _ => Except.ok "SUM")
      (build_message_history (fun _ => Except.ok "SUM")
        ⟨[("c1", ⟨"u1", "New Chat", "en", "", 0⟩)],
         [("c1", List.replicate 11 ⟨"user", "hello"⟩)], []⟩ "c1").store "c1").llm_calls = 0 ∧
    (build_message_history (fun _ => Except.ok "SUM")
      (build_message_history (fun _ => Except.ok "SUM")
        ⟨[("c1", ⟨"u1", "New Chat", "en", "", 0⟩)],
         [("c1", List.replicate 11 ⟨"user", "hello"⟩)], []⟩ "c1").store "c1").store =
      (build_message_history (fun _ => Except.ok "SUM")
        ⟨[("c1", ⟨"u1", "New Chat", "en", "", 0⟩)],
         [("c1", List.replicate 11 ⟨"user", "hello"⟩)], []⟩ "c1").store :=
  C5_build_history_caches_summary (fun _ => Except.ok "SUM")
    ⟨[("c1", ⟨"u1", "New Chat", "en", "", 0⟩)],
     [("c1", List.replicate 11 ⟨"user", "hello"⟩)], []⟩ "c1"
    ⟨"u1", "New Chat", "en", "", 0⟩ (by rfl) (by rfl) (by decide) (by decide)
    (by decide)

/-- Claim C8, counterexample: two messages saved within the same clock
second can draw suffixes `"fff"` then `"000"`; the second key then sorts
*before* the first, so the assigned keys are not strictly increasing in
append order and key-order reads reverse the append order.  Equal draws
(`"abc"`, `"abc"`) even give equal keys, so distinctness is not guaranteed
either. -/
theorem C8_counterexample_same_tick_keys :
    ¬ key_lt (save_message_key "2025-01-01T00:00:00" "fff")
        (save_message_key "2025-01-01T00:00:00" "000") ∧
    key_lt (save_message_key "2025-01-01T00:00:00" "000")
      (save_message_key "2025-01-01T00:00:00" "fff") ∧
    save_message_key "2025-01-01T00:00:00" "abc" =
      save_message_key "2025-01-01T00:00:00" "abc" := by
  refine ⟨by decide, by decide, rfl⟩

/-- Claim C8 (amended): message keys are distinct and strictly increasing
in append order whenever the second-resolution clock prefix advances
between the two appends, or — within the same clock tick — when the later
message draws a lexicographically larger random suffix.  (Within one tick
the 3-hex-character suffix only makes ties unlikely; it cannot guarantee
order, as the counterexample shows.) -/
theorem C8_key_order_when_clock_or_suffix_increases (base1 base2 s1 s2 : String)
    (h : (base1 = base2 ∧ s1.data.length = s2.data.length ∧
            List.Lex (· < ·) s1.data s2.data) ∨
         (base1.data.length = base2.data.length ∧
            List.Lex (· < ·) base1.data base2.data)) :
    key_lt (save_message_key base1 s1) (save_message_key base2 s2) ∧
    save_message_key base1 s1 ≠ save_message_key base2 s2 := by
  have hlt : key_lt (save_message_key base1 s1) (save_message_key base2 s2) := by
    unfold key_lt save_message_key
    rw [string_data_append, string_data_append, string_data_append,
      string_data_append, string_data_append, string_data_append]
    simp only [List.append_assoc]
    rcases h with ⟨hb, hlen, hlex⟩ | ⟨hlen, hlex⟩
    · rw [hb]
      apply key_lt_append_left
      apply key_lt_append_left
      exact key_lt_append_of_length_eq _ _ hlen hlex
    · exact key_lt_append_of_length_eq _ _ hlen hlex
  refine ⟨hlt, ?_⟩
  intro heq
  rw [heq] at hlt
  exact key_lt_irrefl_data _ hlt

/-- Witness for C8 (amended) at concrete keys: same clock second, suffix
`"0af"` then `"0b0"` — the keys are ordered and distinct. -/
theorem C8_key_order_when_clock_or_suffix_increases_witness :
    key_lt (save_message_key "2025-01-01T00:00:01" "0af")
      (save_message_key "2025-01-01T00:00:01" "0b0") ∧
    save_message_key "2025-01-01T00:00:01" "0af" ≠
      save_message_key "2025-01-01T00:00:01" "0b0" :=
  C8_key_order_when_clock_or_suffix_increases "2025-01-01T00:00:01"
    "2025-01-01T00:00:01" "0af" "0b0" (Or.inl ⟨rfl, by decide, by decide⟩)

/-- Claim C2: whenever the language guard rejects an inbound turn, the
state machine terminates immediately from the guard state — the only node
that runs is `language_guard`, no external call is attempted (in
particular the model is never invoked), the store is untouched, and the
turn's response (as extracted by the route layer) is the canned rejection
text, optionally prefixed by the guard's reason. -/
theorem C2_guard_rejection_bypasses_model (env : Env) (fuel : Nat)
    (s0 : AgentState) (store : Store) (hfuel : 0 < fuel)
    (hrej : (validate_language s0.human_input.data s0.selected_language).fst = false) :
    (run_turn env fuel s0 store).snd = [Node.language_guard] ∧
    (run_turn env fuel s0 store).fst.events = [] ∧
    (run_turn env fuel s0 store).fst.store = store ∧
    (run_turn env fuel s0 store).fst.state.language_accepted = some false ∧
    ∃ rej, (run_turn env fuel s0 store).fst.state.language_rejection = some rej ∧
      turn_response (run_turn env fuel s0 store).fst.state = rej ∧
      (rej = get_rejection_message s0.selected_language ∨
        ∃ r, (validate_language s0.human_input.data s0.selected_language).snd = some r ∧
          rej = r ++ "\n\n" ++ get_rejection_message s0.selected_language) := by
  obtain ⟨n, rfl⟩ : ∃ n, fuel = n + 1 := ⟨fuel - 1, by omega⟩
  rcases hval : validate_language s0.human_input.data s0.selected_language with ⟨b, r⟩
  rw [hval] at hrej
  simp only at hrej
  subst hrej
  have hlg : run_language_guard ⟨s0, store, []⟩ =
      ⟨{ s0 with language_accepted := some false,
                 language_rejection := some (match r with
                   | some rr =>
                       if rr = "" then get_rejection_message s0.selected_language
                       else rr ++ "\n\n" ++ get_rejection_message s0.selected_language
                   | none => get_rejection_message s0.selected_language) },
        store, []⟩ := by
    simp only [run_language_guard, hval]
    cases r <;> rfl
  have hroute : next_node .language_guard
      (run_language_guard ⟨s0, store, []⟩).state = none := by
    rw [hlg]
    simp [next_node, route_language]
  have hrun : run_turn env (n + 1) s0 store =
      (run_language_guard ⟨s0, store, []⟩, [Node.language_guard]) := by
    unfold run_turn
    simp only [run_graph, run_node]
    rw [hroute]
    rfl
  rw [hrun, hlg]
  refine ⟨rfl, rfl, rfl, rfl, ?_⟩
  refine ⟨_, rfl, ?_, ?_⟩
  · unfold turn_response
    simp
  · rcases r with _ | rr
    · exact Or.inl rfl
    · by_cases hrr : rr = ""
      · left
        simp [hrr]
      · right
        exact ⟨rr, by simp [hval], by simp [hrr]⟩

/-- Witness for C2 at the spec's end-to-end scenario 1: selected language
`"hi"`, input written in Tamil script — the machine stops after
`language_guard` with no external calls, and the response is the rejection
text. -/
theorem C2_guard_rejection_bypasses_model_witness :
    (run_turn ⟨fun _ => Except.error "down", [], fun _ => Except.error "down"⟩ 3
      ⟨"u1", "c1", "hi", "தமிழ", [], [], none, none, none, none⟩
      ⟨[], [], []⟩).snd = [Node.language_guard] ∧
    (run_turn ⟨fun _ => Except.error "down", [], fun _ => Except.error "down"⟩ 3
      ⟨"u1", "c1", "hi", "தமிழ", [], [], none, none, none, none⟩
      ⟨[], [], []⟩).fst.events = [] ∧
    (run_turn ⟨fun _ => Except.error "down", [], fun _ => Except.error "down"⟩ 3
      ⟨"u1", "c1", "hi", "தமிழ", [], [], none, none, none, none⟩
      ⟨[], [], []⟩).fst.store = ⟨[], [], []⟩ ∧
    (run_turn ⟨fun _ => Except.error "down", [], fun _ => Except.error "down"⟩ 3
      ⟨"u1", "c1", "hi", "தமிழ", [], [], none, none, none, none⟩
      ⟨[], [], []⟩).fst.state.language_accepted = some false ∧
    ∃ rej, (run_turn ⟨fun _ => Except.error "down", [], fun _ => Except.error "down"⟩ 3
        ⟨"u1", "c1", "hi", "தமிழ", [], [], none, none, none, none⟩
        ⟨[], [], []⟩).fst.state.language_rejection = some rej ∧
      turn_response (run_turn ⟨fun _ => Except.error "down", [], fun _ => Except.error "down"⟩ 3
        ⟨"u1", "c1", "hi", "தமிழ", [], [], none, none, none, none⟩
        ⟨[], [], []⟩).fst.state = rej ∧
      (rej = get_rejection_message "hi" ∨
        ∃ r, (validate_language "தமிழ".data "hi").snd = some r ∧
          rej = r ++ "\n\n" ++ get_rejection_message "hi") :=
  C2_guard_rejection_bypasses_model
    ⟨fun _ => Except.error "down", [], fun _ => Except.error "down"⟩ 3
    ⟨"u1", "c1", "hi", "தமிழ", [], [], none, none, none, none⟩
    ⟨[], [], []⟩ (by decide) (by decide)
